import Mathlib

/-!
Shallow embedding of `monday/query_joins.py`, the query-builder module of the
`monday` repository, together with theorems settling the specification claims.

Python values are embedded as follows: machine-independent Python ints become
`Int`, `str` becomes `String`, `bool` becomes `Bool`, optional arguments become
`Option`, JSON-serialisable dicts become an explicit `Json` inductive.  Every
builder function keeps its Python name.  Helpers that live in
`monday/utils.py` and `monday/resources/types.py` (files not present under
`src/`) are modelled from the spec and say so in their doc comments.
-/

/-- JSON values, the shape of Python dict/list/scalar arguments that the
builders serialise into the query text. -/
inductive Json where
  | str (s : String)
  | num (n : Int)
  | bool (b : Bool)
  | null
  | arr (xs : List Json)
  | obj (kvs : List (String × Json))

/-- Escaping performed on strings embedded inside JSON string literals
(quote, backslash and newline, the only special characters the claims use). -/
def jsonEscape (s : String) : String :=
  String.join (s.data.map (fun c =>
    if c = '"' then "\\\""
    else if c = '\\' then "\\\\"
    else if c = '\n' then "\\n"
    else String.singleton c))

mutual

/-- Serialisation of a `Json` value with Python's default `json.dumps`
separators (a space after each comma and colon). -/
def Json.dumps : Json → String
  | .str s => "\"" ++ jsonEscape s ++ "\""
  | .num n => toString n
  | .bool b => cond b "true" "false"
  | .null => "null"
  | .arr xs => "[" ++ String.intercalate ", " (dumpsList xs) ++ "]"
  | .obj kvs => "\x7b" ++ String.intercalate ", " (dumpsObj kvs) ++ "\x7d"

/-- Serialisation of the elements of a JSON array. -/
def dumpsList : List Json → List String
  | [] => []
  | x :: xs => x.dumps :: dumpsList xs

/-- Serialisation of the key/value pairs of a JSON object. -/
def dumpsObj : List (String × Json) → List String
  | [] => []
  | (k, v) :: xs => ("\"" ++ jsonEscape k ++ "\": " ++ v.dumps) :: dumpsObj xs

end

/-- Python `str` on a boolean: `str(True) = "True"`, `str(False) = "False"`. -/
def pyBoolStr (b : Bool) : String := cond b "True" "False"

/-- Python `str.lower` on ASCII text, character by character. -/
def charLower (c : Char) : Char :=
  if 65 ≤ c.toNat ∧ c.toNat ≤ 90 then Char.ofNat (c.toNat + 32) else c

/-- Python `str.lower` on a string of ASCII text. -/
def pyLower (s : String) : String := String.mk (s.data.map charLower)

/-- Python `str(b).lower()`, the lowering used by the builders that emit
lowercase boolean tokens. -/
def pyBoolLowerStr (b : Bool) : String := pyLower (pyBoolStr b)

/-- Python `x or d` on an optional integer: `None` and `0` are falsy and are
replaced by the default. -/
def pyIntOr (x : Option Int) (d : Int) : Int :=
  match x with
  | none => d
  | some n => if n = 0 then d else n

/-- Python `str` on a list of ints: `str([1, 2]) = "[1, 2]"`. -/
def pyIntList (l : List Int) : String :=
  "[" ++ String.intercalate ", " (l.map toString) ++ "]"

/-- Boolean test: is `pat` a prefix of `s` (on character lists)? -/
def charsPrefix : List Char → List Char → Bool
  | [], _ => true
  | _ :: _, [] => false
  | c :: cs, d :: ds => c == d && charsPrefix cs ds

/-- Boolean test: does `pat` occur as a contiguous run inside `s`? -/
def charsSub (pat : List Char) : List Char → Bool
  | [] => pat.isEmpty
  | c :: rest => charsPrefix pat (c :: rest) || charsSub pat rest

/-- Substring test on strings, used to state containment facts about the
emitted query text. -/
def strContains (s pat : String) : Bool := charsSub pat.data s.data

/-- Modelled from the spec: the `BoardKind` enumeration from
`monday/resources/types.py`, a file not under `src/`; the spec describes
enum-typed arguments whose underlying values are lowercase tokens. -/
inductive BoardKind where
  | publicBoard | privateBoard | share
  deriving DecidableEq

/-- Modelled from the spec: the underlying string value of a `BoardKind`
member, what Python's `.value` returns. -/
def boardKindValue : BoardKind → String
  | .publicBoard => "public"
  | .privateBoard => "private"
  | .share => "share"

/-- Modelled from the spec: the `BoardState` enumeration from
`monday/resources/types.py`, not under `src/`. -/
inductive BoardState where
  | all | active | archived | deleted
  deriving DecidableEq

/-- Modelled from the spec: the underlying string value of a `BoardState`
member. -/
def boardStateValue : BoardState → String
  | .all => "all"
  | .active => "active"
  | .archived => "archived"
  | .deleted => "deleted"

/-- Modelled from the spec: the `BoardsOrderBy` enumeration from
`monday/resources/types.py`, not under `src/`. -/
inductive BoardsOrderBy where
  | created_at | used_at
  deriving DecidableEq

/-- Modelled from the spec: the underlying string value of a `BoardsOrderBy`
member. -/
def boardsOrderByValue : BoardsOrderBy → String
  | .created_at => "created_at"
  | .used_at => "used_at"

/-- Modelled from the spec: the `DuplicateType` enumeration from
`monday/resources/types.py`, not under `src/`; its underlying values are the
duplication-mode tokens of the remote API. -/
inductive DuplicateType where
  | with_structure | with_pulses | with_pulses_and_updates
  deriving DecidableEq

/-- Modelled from the spec: the underlying string value of a `DuplicateType`
member. -/
def duplicateTypeValue : DuplicateType → String
  | .with_structure => "duplicate_board_with_structure"
  | .with_pulses => "duplicate_board_with_pulses"
  | .with_pulses_and_updates => "duplicate_board_with_pulses_and_updates"

/-- Modelled from the spec: the closed `ColumnType` enumeration from
`monday/resources/types.py`, not under `src/`; its members are the keys used
by the fragment table in `src/monday/query_joins.py` plus the members that
the table's comments note have no entry. -/
inductive ColumnType where
  | BUTTON | CHECKBOX | COLOR_PICKER | CONNECT_BOARDS | COUNTRY | CREATION_LOG
  | DATE | DEPENDENCY | DROPDOWN | EMAIL | FILE | FORMULA | HOUR | ITEM_ID
  | LAST_UPDATED | LINK | LOCATION | LONG_TEXT | MIRROR | MONDAY_DOC | NUMBERS
  | PEOPLE | PHONE | PROGRESS | RATING | STATUS | TAGS | TEAM | TEXT | TIMELINE
  | TIME_TRACKING | VOTE | WEEK | WORLD_CLOCK
  deriving DecidableEq

/-- Modelled from the spec: the underlying string value of a `ColumnType`
member, the snake-case column-kind tag emitted for `column_type` arguments. -/
def columnTypeValue : ColumnType → String
  | .BUTTON => "button"
  | .CHECKBOX => "checkbox"
  | .COLOR_PICKER => "color_picker"
  | .CONNECT_BOARDS => "board_relation"
  | .COUNTRY => "country"
  | .CREATION_LOG => "creation_log"
  | .DATE => "date"
  | .DEPENDENCY => "dependency"
  | .DROPDOWN => "dropdown"
  | .EMAIL => "email"
  | .FILE => "file"
  | .FORMULA => "formula"
  | .HOUR => "hour"
  | .ITEM_ID => "item_id"
  | .LAST_UPDATED => "last_updated"
  | .LINK => "link"
  | .LOCATION => "location"
  | .LONG_TEXT => "long_text"
  | .MIRROR => "mirror"
  | .MONDAY_DOC => "doc"
  | .NUMBERS => "numbers"
  | .PEOPLE => "people"
  | .PHONE => "phone"
  | .PROGRESS => "progress"
  | .RATING => "rating"
  | .STATUS => "status"
  | .TAGS => "tags"
  | .TEAM => "team"
  | .TEXT => "text"
  | .TIMELINE => "timeline"
  | .TIME_TRACKING => "time_tracking"
  | .VOTE => "vote"
  | .WEEK => "week"
  | .WORLD_CLOCK => "world_clock"

/-- The read-only column-fragment table `COLUMN_VALUES_SPECIFIC` of
`src/monday/query_joins.py`, mapping a column type to the literal inline-
fragment text appended to an items query; members absent from the Python
dict map to `none`. -/
def COLUMN_VALUES_SPECIFIC : ColumnType → Option String
  | .BUTTON => some "\n        ... on ButtonValue \x7b\n            color\n            label\n        \x7d"
  | .CHECKBOX => some "\n        ... on CheckboxValue \x7b\n            checked\n            updated_at\n        \x7d"
  | .COLOR_PICKER => some "\n        ... on ColorPickerValue \x7b\n            color\n            updated_at\n        \x7d"
  | .CONNECT_BOARDS => some "\n        ... on BoardRelationValue \x7b\n            display_value\n            updated_at\n            linked_item_ids\n            linked_items \x7b\n                name\n            \x7d\n        \x7d"
  | .COUNTRY => some "\n        ... on CountryValue \x7b\n            country \x7b\n                name\n                code\n            \x7d\n            updated_at\n        \x7d"
  | .CREATION_LOG => some "\n        ... on CreationLogValue \x7b\n            created_at\n            creator \x7b\n                name\n                id\n                email\n            \x7d\n        \x7d"
  | .DATE => some "\n        ... on DateValue \x7b\n            time\n            date\n            updated_at\n            icon\n        \x7d"
  | .DEPENDENCY => some "\n        ... on DependencyValue \x7b\n            linked_item_ids\n            linked_items \x7b\n                name\n            \x7d\n            updated_at\n            display_value\n            updated_at\n        \x7d"
  | .DROPDOWN => some "\n        ... on DropdownValue \x7b\n            values \x7b\n                id\n                label\n            \x7d\n            column \x7b\n                title\n            \x7d\n        \x7d"
  | .EMAIL => some "\n        ... on EmailValue \x7b\n            email\n            updated_at\n            label\n        \x7d\n        "
  | .FILE => some "\n        ... on FileValue \x7b\n            files\n        \x7d\n        "
  | .HOUR => some "\n        ... on HourValue \x7b\n            minute\n            hour\n            updated_at\n        \x7d\n        "
  | .ITEM_ID => some "\n        ... on ItemIdValue \x7b\n            item_id\n        \x7d\n        "
  | .LAST_UPDATED => some "\n        ... on LastUpdatedValue \x7b\n            updated_at\n            updater \x7b\n                name\n            \x7d\n            updater_id\n        \x7d\n        "
  | .LINK => some "\n        ... on LinkValue \x7b\n            url\n            url_text\n        \x7d\n        "
  | .LOCATION => some "\n        ... on LocationValue \x7b\n            address\n            city\n            city_short\n            country\n            country_short\n            lat\n            lng\n            place_id\n            street\n            street_number\n            street_number_short\n            street_short\n            updated_at\n        \x7d"
  | .LONG_TEXT => some "\n        ... on LongTextValue \x7b\n            updated_at\n        \x7d"
  | .MIRROR => some "\n        ... on MirrorValue \x7b\n            column \x7b\n                title\n            \x7d\n            display_value\n            mirrored_items \x7b\n                linked_item \x7b\n                    name\n                    id\n                \x7d\n                linked_board \x7b\n                    name\n                \x7d\n                linked_board_id\n                mirrored_value\n            \x7d\n        \x7d"
  | .MONDAY_DOC => some "\n        ... on DocValue \x7b\n            file \x7b\n                doc \x7b\n                  name\n                  workspace_id\n                  relative_url\n                  settings\n                \x7d\n                creator \x7b\n                  id\n                  name\n                \x7d\n                created_at\n            \x7d\n        \x7d"
  | .NUMBERS => some "\n        ... on NumbersValue \x7b\n            number\n            symbol\n            direction\n        \x7d"
  | .PEOPLE => some "\n        ... on PeopleValue \x7b\n            persons_and_teams \x7b\n                id\n                kind\n            \x7d\n            updated_at\n        \x7d"
  | .PHONE => some "\n        ... on PhoneValue \x7b\n            country_short_name\n            phone\n            updated_at\n        \x7d"
  | .RATING => some "\n        ... on RatingValue \x7b\n            rating\n            updated_at\n        \x7d"
  | .STATUS => some "\n        ... on StatusValue \x7b\n            index\n            is_done\n            label\n            label_style \x7b\n                border\n                color\n            \x7d\n            update_id\n            updated_at\n        \x7d"
  | .TAGS => some "\n        ... on TagsValue \x7b\n            tag_ids\n        \x7d"
  | .TIMELINE => some "\n        ... on TimelineValue \x7b\n            from\n            to\n            updated_at\n            visualization_type\n        \x7d"
  | .TIME_TRACKING => some "\n        ... on TimeTrackingValue \x7b\n            duration\n            history \x7b\n                created_at\n                ended_at\n                ended_user_id\n                id\n                manually_entered_end_date\n                manually_entered_end_time\n                manually_entered_start_date\n                manually_entered_start_time\n                started_at\n                started_user_id\n                status\n                updated_at\n            \x7d\n            running\n            started_at\n            updated_at\n        \x7d"
  | .VOTE => some "\n        ... on VoteValue \x7b\n            vote_count\n            voter_ids\n            updated_at\n        \x7d"
  | .WEEK => some "\n        ... on WeekValue \x7b\n            start_date\n            end_date\n        \x7d"
  | .WORLD_CLOCK => some "\n        ... on WorldClockValue \x7b\n            timezone\n            updated_at\n        \x7d"
  | _ => none

/-- Modelled from the spec: `monday_json_stringify` from `monday/utils.py`,
which is not under `src/`; per the spec a structured value required as an
embedded JSON literal is serialised to compact JSON and embedded verbatim,
with an empty map emitting `{}`. -/
def monday_json_stringify (v : Json) : String := v.dumps

/-- Modelled from the spec: `format_specific_column_values` from
`monday/utils.py`, which is not under `src/`; per the spec it concatenates,
in the caller-supplied order, the literal fragments of the requested column
types that have table entries; an absent or empty request yields the empty
string, and a requested type without a table entry silently contributes
nothing. -/
def format_specific_column_values (requested : Option (List ColumnType))
    (table : ColumnType → Option String) : String :=
  match requested with
  | none => ""
  | some l => String.join (l.map (fun c => (table c).getD ""))

/-- Values that can appear in the named-parameter lists handed to
`gather_params`: integers, strings, enum members (already reduced to their
underlying value) and mapping-valued query filters. -/
inductive PVal where
  | int (n : Int)
  | str (s : String)
  | en (v : String)
  | qmap (kvs : List (String × String))

/-- Modelled from the spec: the rendering of one parameter value inside an
argument list (strings as quoted literals, enums as their underlying value,
query-filter mappings by their own braced grammar). -/
def renderPVal : PVal → String
  | .int n => toString n
  | .str s => "\"" ++ s ++ "\""
  | .en v => v
  | .qmap kvs =>
      "\x7b" ++ String.intercalate ", " (kvs.map (fun kv => kv.1 ++ ": " ++ kv.2)) ++ "\x7d"

/-- Modelled from the spec: `gather_params` from `monday/utils.py`, which is
not under `src/`; per the spec it turns the function's named arguments, minus
an exclusion list, into a single comma-joined argument-list fragment covering
only the arguments whose value is present. -/
def gather_params (raw_params : List (String × Option PVal))
    (excluded_params : List String) : String :=
  String.intercalate ", " (raw_params.filterMap (fun p =>
    match p.2 with
    | none => none
    | some v =>
        if excluded_params.contains p.1 then none
        else some (p.1 ++ ": " ++ renderPVal v)))

/-- The builder `mutate_item_query` of `src/monday/query_joins.py`
(lines 277-296): a `create_item` mutation. -/
def mutate_item_query (board_id : Int) (group_id item_name : String)
    (column_values : Option (List (String × Json)))
    (create_labels_if_missing : Bool) : String :=
  let column_values := match column_values with
    | none => []
    | some m => m
  "mutation\n    \x7b\n        create_item (\n            board_id: " ++
    toString board_id ++
    ",\n            group_id: \"" ++ group_id ++
    "\",\n            item_name: \"" ++ item_name ++
    "\",\n            column_values: " ++ monday_json_stringify (Json.obj column_values) ++
    ",\n            create_labels_if_missing: " ++ pyBoolLowerStr create_labels_if_missing ++
    "\n        ) \x7b\n            id\n        \x7d\n    \x7d"

/-- The builder `mutate_subitem_query` of `src/monday/query_joins.py`
(lines 299-323): a `create_subitem` mutation. -/
def mutate_subitem_query (parent_item_id : Int) (subitem_name : String)
    (column_values : Option (List (String × Json)))
    (create_labels_if_missing : Bool) : String :=
  let column_values := match column_values with
    | none => []
    | some m => m
  "mutation\n    \x7b\n        create_subitem (\n            parent_item_id: " ++
    toString parent_item_id ++
    ",\n            item_name: \"" ++ subitem_name ++
    "\",\n            column_values: " ++ monday_json_stringify (Json.obj column_values) ++
    ",\n            create_labels_if_missing: " ++ pyBoolLowerStr create_labels_if_missing ++
    "\n        ) \x7b\n            id,\n            name,\n            column_values \x7b\n                id,\n                text\n            \x7d,\n            board \x7b\n                id,\n                name\n            \x7d\n        \x7d\n    \x7d"

/-- The builder `get_item_by_id_query` of `src/monday/query_joins.py`
(lines 359-381): an items query with the type-specific inline fragments
selected from `COLUMN_VALUES_SPECIFIC`. -/
def get_item_by_id_query (ids : List Int)
    (specific_column_values : Option (List ColumnType)) : String :=
  let column_values := format_specific_column_values specific_column_values
    COLUMN_VALUES_SPECIFIC
  "query\n        \x7b\n            items (ids: " ++ pyIntList ids ++
    ") \x7b\n                id\n                name\n                group \x7b\n                    id\n                    title\n                \x7d\n                column_values \x7b\n                    id\n                    text\n                    value\n                    type\n                    " ++
    column_values ++
    "\n                \x7d\n            \x7d\n        \x7d"

/-- The builder `update_item_query` of `src/monday/query_joins.py`
(lines 384-405): a `change_column_value` mutation. -/
def update_item_query (board_id item_id : Int) (column_id : String)
    (value : Json) (create_labels_if_missing : Bool) : String :=
  "mutation\n        \x7b\n            change_column_value(\n                board_id: " ++
    toString board_id ++
    ",\n                item_id: " ++ toString item_id ++
    ",\n                column_id: \"" ++ column_id ++
    "\",\n                value: " ++ monday_json_stringify value ++
    ",\n                create_labels_if_missing: " ++ pyBoolLowerStr create_labels_if_missing ++
    "\n            ) \x7b\n                id\n                name\n                column_values \x7b\n                    id\n                    text\n                    value\n                \x7d\n            \x7d\n        \x7d"

/-- The builder `create_column` of `src/monday/query_joins.py`
(lines 445-477): a `create_column` mutation; when `column_type` is absent the
short template carrying only `board_id` and `title` is used and the
`description` and `defaults` arguments do not appear. -/
def create_column (board_id : Int) (column_title : String)
    (column_type : Option ColumnType) (defaults : Option (List (String × Json)))
    (description : String) : String :=
  let defaults := match defaults with
    | none => []
    | some m => m
  match column_type with
  | none =>
      "mutation\x7b\n            create_column(board_id: " ++ toString board_id ++
        ", title: \"" ++ column_title ++
        "\") \x7b\n                id\n                title\n                description\n            \x7d\n        \x7d"
  | some ct =>
      "mutation\x7b\n            create_column(board_id: " ++ toString board_id ++
        ", title: \"" ++ column_title ++
        "\", description: \"" ++ description ++
        "\", column_type: " ++ columnTypeValue ct ++
        ", defaults: " ++ monday_json_stringify (Json.obj defaults) ++
        ") \x7b\n                id\n                title\n                description\n            \x7d\n        \x7d"

/-- The builder `update_multiple_column_values_query` of
`src/monday/query_joins.py` (lines 500-518): a `change_multiple_column_values`
mutation. -/
def update_multiple_column_values_query (board_id item_id : Int)
    (column_values : List (String × Json))
    (create_labels_if_missing : Bool) : String :=
  "mutation\n        \x7b\n            change_multiple_column_values (\n                board_id: " ++
    toString board_id ++
    ",\n                item_id: " ++ toString item_id ++
    ",\n                column_values: " ++ monday_json_stringify (Json.obj column_values) ++
    ",\n                create_labels_if_missing: " ++ pyBoolLowerStr create_labels_if_missing ++
    "\n            ) \x7b\n                id\n                name\n                column_values \x7b\n                  id\n                  text\n                \x7d\n            \x7d\n        \x7d"

/-- The builder `get_update_query` of `src/monday/query_joins.py`
(lines 597-609): an updates query whose `page` argument is `page or 1`. -/
def get_update_query (limit : Int) (page : Option Int) : String :=
  "query\n        \x7b\n            updates (\n                limit: " ++
    toString limit ++
    ",\n                page: " ++ toString (pyIntOr page 1) ++
    "\n            ) \x7b\n                id,\n                body\n            \x7d\n        \x7d"

/-- The builder `get_board_items_query` of `src/monday/query_joins.py`
(lines 630-659): an `items_page` query whose argument list is derived by
`gather_params` from the function's locals minus `board_id`, wrapped in
parentheses only when non-empty. -/
def get_board_items_query (board_id : Int)
    (query_params : Option (List (String × String)))
    (limit : Option Int) (cursor : Option String) : String :=
  let raw_params : List (String × Option PVal) :=
    [("board_id", some (.int board_id)),
     ("query_params", query_params.map .qmap),
     ("limit", limit.map .int),
     ("cursor", cursor.map .str)]
  let items_page_params := gather_params raw_params ["board_id"]
  let wrapped_params := if items_page_params = "" then ""
    else "(" ++ items_page_params ++ ")"
  "query\x7b\n        boards(ids: " ++ toString board_id ++
    ")\x7b\n            name\n            items_page " ++ wrapped_params ++
    " \x7b\n                cursor\n                items \x7b\n                    group \x7b\n                        id\n                        title\n                    \x7d\n                    id\n                    name\n                    column_values \x7b\n                        id\n                        text\n                        type\n                        value\n                    \x7d\n                \x7d\n            \x7d\n        \x7d\n    \x7d"

/-- The builder `get_boards_query` of `src/monday/query_joins.py`
(lines 662-696): a boards query that renders each non-`None` local as
`name: value`, reducing enum members to their underlying value. -/
def get_boards_query (limit page : Option Int) (ids : Option (List Int))
    (board_kind : Option BoardKind) (state : Option BoardState)
    (order_by : Option BoardsOrderBy) : String :=
  let query_params : List String :=
    (match limit with | none => [] | some v => ["limit: " ++ toString v]) ++
    (match page with | none => [] | some v => ["page: " ++ toString v]) ++
    (match ids with | none => [] | some v => ["ids: " ++ pyIntList v]) ++
    (match board_kind with | none => [] | some v => ["board_kind: " ++ boardKindValue v]) ++
    (match state with | none => [] | some v => ["state: " ++ boardStateValue v]) ++
    (match order_by with | none => [] | some v => ["order_by: " ++ boardsOrderByValue v])
  let joined_params := if query_params.isEmpty then ""
    else "(" ++ String.intercalate ", " query_params ++ ")"
  "query\n    \x7b\n        boards " ++ joined_params ++
    " \x7b\n            id\n            name\n            permissions\n            tags \x7b\n              id\n              name\n            \x7d\n            groups \x7b\n                id\n                title\n            \x7d\n            columns \x7b\n                id\n                title\n                type\n            \x7d\n        \x7d\n    \x7d"

/-- The builder `duplicate_board_query` of `src/monday/query_joins.py`
(lines 724-747): a `duplicate_board` mutation; note that `keep_subscribers`
is interpolated with Python `str`, which capitalises booleans, while
`workspace_id` is appended with a doubled space, both faithful to the
source. -/
def duplicate_board_query (board_id : Int) (duplicate_type : DuplicateType)
    (board_name : Option String) (folder_id : Option Int)
    (keep_subscribers : Option Bool) (workspace_id : Option Int) : String :=
  let optional_params := ""
  let optional_params := match board_name with
    | none => optional_params
    | some n => optional_params ++ ", board_name: \"" ++ n ++ "\""
  let optional_params := match folder_id with
    | none => optional_params
    | some f => optional_params ++ ", folder_id: " ++ toString f
  let optional_params := match keep_subscribers with
    | none => optional_params
    | some k => optional_params ++ ", keep_subscribers: " ++ pyBoolStr k
  let optional_params := match workspace_id with
    | none => optional_params
    | some w => optional_params ++ ",  workspace_id: " ++ toString w
  "\n    mutation \x7b\n        duplicate_board(board_id: " ++ toString board_id ++
    ", duplicate_type: " ++ duplicateTypeValue duplicate_type ++ optional_params ++
    ") \x7b\n            board \x7b\n                id\n            \x7d\n        \x7d\n    \x7d\n    "

/-- The builder `create_board_by_workspace_query` of
`src/monday/query_joins.py` (lines 750-759): a `create_board` mutation whose
`workspace_id` fragment is built with Python truthiness (`if workspace_id`),
so both `None` and `0` suppress it. -/
def create_board_by_workspace_query (board_name : String)
    (board_kind : BoardKind) (workspace_id : Option Int) : String :=
  let workspace_query := match workspace_id with
    | none => ""
    | some w => if w = 0 then "" else "workspace_id: " ++ toString w
  "\n    mutation \x7b\n        create_board (board_name:\"" ++ board_name ++
    "\", board_kind: " ++ boardKindValue board_kind ++
    ", " ++ workspace_query ++
    ") \x7b\n            id\n        \x7d\n    \x7d\n    "

/-- The builder `delete_users_from_workspace_query` of
`src/monday/query_joins.py` (lines 925-933): despite its name, the template
it interpolates names the mutation `add_users_to_workspace`, faithful to the
source. -/
def delete_users_from_workspace_query (workspace_id : Int)
    (user_ids : List Int) : String :=
  "\n    mutation \x7b\n        add_users_to_workspace (workspace_id: " ++
    toString workspace_id ++
    ", user_ids: " ++ pyIntList user_ids ++
    ") \x7b\n            id\n        \x7d\n    \x7d\n    "

set_option maxRecDepth 100000

/-- C1: the claim says every builder's emitted operation name matches the
remote mutation the builder is named for, and in particular that
`delete_users_from_workspace_query` emits the mutation name
`delete_users_from_workspace`.  The code instead interpolates the template
of `add_users_to_workspace`: at workspace_id 1 and user_ids [2] the emitted
text names `add_users_to_workspace` and never mentions
`delete_users_from_workspace`. -/
theorem c1_delete_users_mutation_name_mismatch :
    strContains (delete_users_from_workspace_query 1 [2])
      "add_users_to_workspace" = true ∧
    strContains (delete_users_from_workspace_query 1 [2])
      "delete_users_from_workspace" = false := by
  constructor <;> decide

/-- C2: `mutate_item_query` with board_id 1, group_id "topics", item_name
"Task", column_values a status/Done map and create_labels_if_missing true
returns a `create_item` mutation containing `board_id: 1`,
`group_id: "topics"`, `item_name: "Task"`, the column-values map as compact
JSON, and `create_labels_if_missing: true`. -/
theorem c2_mutate_item_query_end_to_end :
    strContains (mutate_item_query 1 "topics" "Task"
      (some [("status", Json.obj [("label", Json.str "Done")])]) true)
      "create_item" = true ∧
    strContains (mutate_item_query 1 "topics" "Task"
      (some [("status", Json.obj [("label", Json.str "Done")])]) true)
      "board_id: 1," = true ∧
    strContains (mutate_item_query 1 "topics" "Task"
      (some [("status", Json.obj [("label", Json.str "Done")])]) true)
      "group_id: \"topics\"" = true ∧
    strContains (mutate_item_query 1 "topics" "Task"
      (some [("status", Json.obj [("label", Json.str "Done")])]) true)
      "item_name: \"Task\"" = true ∧
    strContains (mutate_item_query 1 "topics" "Task"
      (some [("status", Json.obj [("label", Json.str "Done")])]) true)
      "column_values: \x7b\"status\": \x7b\"label\": \"Done\"\x7d\x7d" = true ∧
    strContains (mutate_item_query 1 "topics" "Task"
      (some [("status", Json.obj [("label", Json.str "Done")])]) true)
      "create_labels_if_missing: true" = true := by
  refine ⟨?_, ?_, ?_, ?_, ?_, ?_⟩ <;> decide

/-- C3: the claim says every boolean flag is emitted as the lowercase token
`true`/`false`, never capitalized.  The builders that lower booleans with
`str(...).lower()` do emit lowercase, but `duplicate_board_query`
interpolates `keep_subscribers` with plain Python `str`, so passing `True`
emits the capitalized literal `keep_subscribers: True` and not the required
lowercase spelling. -/
theorem c3_keep_subscribers_capitalized :
    strContains (duplicate_board_query 1 DuplicateType.with_structure
      none none (some true) none) "keep_subscribers: True" = true ∧
    strContains (duplicate_board_query 1 DuplicateType.with_structure
      none none (some true) none) "keep_subscribers: true" = false ∧
    strContains (mutate_item_query 1 "g" "n" none true)
      "create_labels_if_missing: true" = true ∧
    strContains (update_multiple_column_values_query 1 2 [] true)
      "create_labels_if_missing: true" = true ∧
    strContains (update_multiple_column_values_query 1 2 [] false)
      "create_labels_if_missing: false" = true := by
  refine ⟨?_, ?_, ?_, ?_, ?_⟩ <;> decide

/-- C4 counterexample: the claim says `create_board_by_workspace_query` with
workspace_id 0 still emits a workspace_id argument and that
`get_board_items_query` without cursor or limit mentions neither `cursor`
nor `limit` anywhere.  At workspace_id 0 the emitted mutation contains no
`workspace_id` at all (the source tests Python truthiness, not absence), and
the items query always contains the word `cursor` as a returned field. -/
theorem c4_workspace_id_zero_counterexample :
    strContains (create_board_by_workspace_query "B" BoardKind.publicBoard
      (some 0)) "workspace_id" = false ∧
    strContains (get_board_items_query 1 none none none) "cursor" = true := by
  constructor <;> decide

/-- C4 (amended): an optional argument is omitted from the emitted argument
list when its value is absent; `create_board_by_workspace_query` omits
`workspace_id` whenever the value is falsy — `workspace_id = 0` yields the
same query as `None` — and emits it when nonzero; `get_board_items_query`
with neither cursor nor limit yields an empty `items_page` argument list, a
query with no `cursor:`/`limit` argument and no `null` literal, and giving
only one of cursor/limit omits only the other. -/
theorem c4_optional_argument_omission :
    (∀ (n : String) (k : BoardKind),
      create_board_by_workspace_query n k (some 0)
        = create_board_by_workspace_query n k none) ∧
    strContains (create_board_by_workspace_query "B" BoardKind.publicBoard
      none) "workspace_id" = false ∧
    strContains (create_board_by_workspace_query "B" BoardKind.publicBoard
      (some 5)) "workspace_id: 5" = true ∧
    gather_params [("board_id", some (.int 1)), ("query_params", none),
      ("limit", none), ("cursor", none)] ["board_id"] = "" ∧
    strContains (get_board_items_query 1 none none none) "cursor:" = false ∧
    strContains (get_board_items_query 1 none none none) "limit" = false ∧
    strContains (get_board_items_query 1 none none none) "null" = false ∧
    strContains (get_board_items_query 1 none (some 50) none)
      "limit: 50" = true ∧
    strContains (get_board_items_query 1 none (some 50) none)
      "cursor:" = false ∧
    strContains (get_board_items_query 1 none none (some "abc"))
      "cursor: \"abc\"" = true ∧
    strContains (get_board_items_query 1 none none (some "abc"))
      "limit" = false := by
  refine ⟨fun n k => rfl, ?_, ?_, ?_, ?_, ?_, ?_, ?_, ?_, ?_, ?_⟩ <;> decide

/-- C5: requesting the fragments for DATE and STATUS yields exactly the DATE
and STATUS entries of `COLUMN_VALUES_SPECIFIC` concatenated, for any table
agreeing with it on those two entries (independence of the other entries);
an absent or empty request yields the empty string; TEXT has no entry and
contributes nothing; and `get_item_by_id_query` embeds the concatenation in
its inline-fragment position. -/
theorem c5_fragment_selection :
    format_specific_column_values (some [ColumnType.DATE, ColumnType.STATUS])
        COLUMN_VALUES_SPECIFIC
      = (COLUMN_VALUES_SPECIFIC ColumnType.DATE).getD ""
        ++ (COLUMN_VALUES_SPECIFIC ColumnType.STATUS).getD "" ∧
    format_specific_column_values none COLUMN_VALUES_SPECIFIC = "" ∧
    format_specific_column_values (some []) COLUMN_VALUES_SPECIFIC = "" ∧
    COLUMN_VALUES_SPECIFIC ColumnType.TEXT = none ∧
    format_specific_column_values
        (some [ColumnType.DATE, ColumnType.TEXT, ColumnType.STATUS])
        COLUMN_VALUES_SPECIFIC
      = format_specific_column_values
          (some [ColumnType.DATE, ColumnType.STATUS]) COLUMN_VALUES_SPECIFIC ∧
    strContains (get_item_by_id_query [1]
        (some [ColumnType.DATE, ColumnType.STATUS]))
      ((COLUMN_VALUES_SPECIFIC ColumnType.DATE).getD ""
        ++ (COLUMN_VALUES_SPECIFIC ColumnType.STATUS).getD "") = true ∧
    (∀ table : ColumnType → Option String,
      table ColumnType.DATE = COLUMN_VALUES_SPECIFIC ColumnType.DATE →
      table ColumnType.STATUS = COLUMN_VALUES_SPECIFIC ColumnType.STATUS →
      format_specific_column_values (some [ColumnType.DATE, ColumnType.STATUS])
          table
        = (COLUMN_VALUES_SPECIFIC ColumnType.DATE).getD ""
          ++ (COLUMN_VALUES_SPECIFIC ColumnType.STATUS).getD "") := by
  refine ⟨by decide, by decide, by decide, by decide, by decide, by decide, ?_⟩
  intro table h1 h2
  simp only [format_specific_column_values, List.map_cons, List.map_nil, h1, h2]
  decide

/-- C5 witness: the factored fragment-selection fact applied at the concrete
table `COLUMN_VALUES_SPECIFIC` itself. -/
theorem c5_fragment_selection_witness :
    format_specific_column_values (some [ColumnType.DATE, ColumnType.STATUS])
        COLUMN_VALUES_SPECIFIC
      = (COLUMN_VALUES_SPECIFIC ColumnType.DATE).getD ""
        ++ (COLUMN_VALUES_SPECIFIC ColumnType.STATUS).getD "" :=
  c5_fragment_selection.2.2.2.2.2.2 COLUMN_VALUES_SPECIFIC rfl rfl

/-- C6: in `mutate_item_query` and `mutate_subitem_query` a `None` or empty
column_values argument is serialized into the query text as exactly the two
characters `{}`, and a non-empty status/Done map is embedded verbatim as its
compact JSON rendering. -/
theorem c6_column_values_serialization :
    monday_json_stringify (Json.obj []) = "\x7b\x7d" ∧
    strContains (mutate_item_query 1 "g" "n" none true)
      "column_values: \x7b\x7d," = true ∧
    strContains (mutate_item_query 1 "g" "n" (some []) true)
      "column_values: \x7b\x7d," = true ∧
    strContains (mutate_subitem_query 1 "n" none true)
      "column_values: \x7b\x7d," = true ∧
    strContains (mutate_subitem_query 1 "n" (some []) true)
      "column_values: \x7b\x7d," = true ∧
    monday_json_stringify (Json.obj [("status",
      Json.obj [("label", Json.str "Done")])])
      = "\x7b\"status\": \x7b\"label\": \"Done\"\x7d\x7d" ∧
    strContains (mutate_subitem_query 1 "n"
      (some [("status", Json.obj [("label", Json.str "Done")])]) true)
      "column_values: \x7b\"status\": \x7b\"label\": \"Done\"\x7d\x7d" = true := by
  refine ⟨?_, ?_, ?_, ?_, ?_, ?_, ?_⟩ <;> decide

/-- C7: every enum-valued argument is emitted as its underlying string value:
`duplicate_board_query` emits `duplicate_type`'s underlying token,
`create_column` emits `column_type`'s underlying token, and
`get_boards_query` emits the underlying token of each of `board_kind`,
`state` and `order_by` that it includes. -/
theorem c7_enum_underlying_values :
    (∀ dt : DuplicateType,
      strContains (duplicate_board_query 1 dt none none none none)
        ("duplicate_type: " ++ duplicateTypeValue dt) = true) ∧
    (∀ ct : ColumnType,
      strContains (create_column 1 "T" (some ct) none "")
        ("column_type: " ++ columnTypeValue ct) = true) ∧
    (∀ k : BoardKind,
      strContains (get_boards_query none none none (some k) none none)
        ("board_kind: " ++ boardKindValue k) = true) ∧
    (∀ st : BoardState,
      strContains (get_boards_query none none none none (some st) none)
        ("state: " ++ boardStateValue st) = true) ∧
    (∀ ob : BoardsOrderBy,
      strContains (get_boards_query none none none none none (some ob))
        ("order_by: " ++ boardsOrderByValue ob) = true) := by
  refine ⟨?_, ?_, ?_, ?_, ?_⟩ <;> intro x <;> cases x <;> decide

/-- C9: `get_update_query` emits `page: 1` whenever page is `None` or the
falsy value 0 — both produce the very same query as an explicit page 1 — and
emits the caller's page value whenever it is nonzero. -/
theorem c9_get_update_query_page_default :
    (∀ limit : Int,
      get_update_query limit none = get_update_query limit (some 1)) ∧
    (∀ limit : Int,
      get_update_query limit (some 0) = get_update_query limit (some 1)) ∧
    strContains (get_update_query 10 none) "page: 1" = true ∧
    strContains (get_update_query 10 (some 0)) "page: 1" = true ∧
    (∀ p : Int, p ≠ 0 → pyIntOr (some p) 1 = p) ∧
    strContains (get_update_query 10 (some 7)) "page: 7" = true := by
  refine ⟨fun _ => rfl, fun _ => rfl, by decide, by decide, ?_, by decide⟩
  intro p hp
  simp [pyIntOr, hp]

/-- C9 witness: the nonzero-page clause applied at the concrete page 7. -/
theorem c9_get_update_query_page_default_witness :
    pyIntOr (some 7) 1 = 7 :=
  c9_get_update_query_page_default.2.2.2.2.1 7 (by decide)

/-- C10: when `column_type` is `None`, `create_column` returns a mutation
carrying only the `board_id` and `title` arguments — the `description` and
`defaults` arguments are dropped even when non-empty values are passed (the
output does not depend on them at all) — and they appear exactly when a
column type is provided. -/
theorem c10_create_column_drops_args_without_type :
    (∀ (d : Option (List (String × Json))) (desc : String),
      create_column 1 "T" none d desc = create_column 1 "T" none none "") ∧
    strContains (create_column 1 "T" none
      (some [("labels", Json.arr [Json.str "x"])]) "mydesc")
      "description:" = false ∧
    strContains (create_column 1 "T" none
      (some [("labels", Json.arr [Json.str "x"])]) "mydesc")
      "defaults:" = false ∧
    strContains (create_column 1 "T" none
      (some [("labels", Json.arr [Json.str "x"])]) "mydesc")
      "column_type:" = false ∧
    strContains (create_column 1 "T" none
      (some [("labels", Json.arr [Json.str "x"])]) "mydesc")
      "board_id: 1" = true ∧
    strContains (create_column 1 "T" none
      (some [("labels", Json.arr [Json.str "x"])]) "mydesc")
      "title: \"T\"" = true ∧
    strContains (create_column 1 "T" (some ColumnType.STATUS)
      (some [("labels", Json.arr [Json.str "x"])]) "mydesc")
      "description: \"mydesc\"" = true ∧
    strContains (create_column 1 "T" (some ColumnType.STATUS)
      (some [("labels", Json.arr [Json.str "x"])]) "mydesc")
      "defaults: \x7b\"labels\": [\"x\"]\x7d" = true := by
  refine ⟨fun d desc => rfl, ?_, ?_, ?_, ?_, ?_, ?_, ?_⟩ <;> decide
